import Mathlib

/-!
# Verification of the weather application's entitlement, favorites and auth logic

Shallow embedding of the conditional logic of the repository:

* `src/pages/api/users/premium-status.js` — lazy premium expiry on read;
* `src/pages/api/checkout-sessions/[session_id].js` — payment confirmation
  reconciliation;
* `src/pages/api/checkout_sessions.js` — checkout-session creation metadata and
  the favorites HTTP API;
* `src/lib/favorisService.js` — client-side favorites service with quota and
  duplicate checks;
* `src/contexts/AuthContext.js` (`AuthProvider`) and `src/lib/demoAuth.js` —
  the dual-backend auth facade with its demo fallback.

Timestamps are modelled as integers (comparison is all the code does with
them); the 30-day expiry arithmetic is modelled at day granularity, matching
the `setDate(getDate() + 30)` calendar arithmetic of the source.
-/

namespace Meteo

/-! ## Premium status endpoint (`premium-status.js`) -/

/-- A row of the `user` table as read by the premium-status handler:
`is_premium` and the nullable `premium_expires_at`. -/
structure UserRow where
  is_premium : Bool
  premium_expires_at : Option Int
  deriving DecidableEq, Repr

/-- The observable outcome of one `GET /users/premium-status` call:
the two response fields, the row as left in the directory, and whether an
`update` was issued. -/
structure StatusResult where
  is_premium : Bool
  premium_expires_at : Option Int
  newRow : UserRow
  wrote : Bool
  deriving DecidableEq, Repr

/-- Core of the premium-status handler (lines 90–137 of
`premium-status.js`), after the row for `userId` has been fetched.
`isPremium := userData.is_premium || false`; if the user is premium and has an
expiry date and `now > expiresAt`, the handler persists `is_premium := false`
and answers `false`; otherwise it answers the stored values and writes
nothing.  The returned `premium_expires_at` is the stored value in every
branch. -/
def getStatus (row : UserRow) (now : Int) : StatusResult :=
  let isPremium := row.is_premium
  let expirationInfo := row.premium_expires_at
  match row.premium_expires_at with
  | some expiresAt =>
      if isPremium ∧ expiresAt < now then
        { is_premium := false
          premium_expires_at := expirationInfo
          newRow := { row with is_premium := false }
          wrote := true }
      else
        { is_premium := isPremium
          premium_expires_at := expirationInfo
          newRow := row
          wrote := false }
  | none =>
      { is_premium := isPremium
        premium_expires_at := expirationInfo
        newRow := row
        wrote := false }

/-! ## Payment confirmation reconciler (`checkout-sessions/[session_id].js`)
and checkout-session creation (`checkout_sessions.js`) -/

/-- The fields of a Stripe checkout session that the confirmation handler
reads.  `metadata` is the key/value map attached at creation; `customer_email`
and `customer` are nullable. -/
structure StripeSession where
  payment_status : String
  metadata : List (String × String)
  customer_email : Option String
  customer : Option String
  deriving DecidableEq, Repr

/-- Lookup of a metadata key (`session.metadata?.k`). -/
def metaGet (m : List (String × String)) (k : String) : Option String :=
  (m.find? (fun p => p.1 = k)).map (fun p => p.2)

/-- The `status` field of the confirmation response, when present. -/
inductive ConfirmStatus where
  | complete
  | pending
  | error
  deriving DecidableEq, Repr

/-- Observable outcome of one `GET /checkout-sessions/{sessionId}` call:
HTTP status, the optional `status` JSON field, the `user_updated` flag when
the response carries one, the reported `premium_expires_at`, and the
entitlement write performed on the user directory (user id and new expiry),
if any. -/
structure ConfirmResult where
  httpStat : Nat
  status : Option ConfirmStatus
  user_updated : Option Bool
  premium_expires_at : Option Int
  userWrite : Option (String × Int)
  deriving DecidableEq, Repr

/-- User identification step of the confirmation handler (lines 88–113):
`metadata?.user_id` first, then — only when that is absent — lookup of
`customer_email` in the `user` table (`emailLookup`). -/
def resolveUser (session : StripeSession)
    (emailLookup : String → Option String) : Option String :=
  match metaGet session.metadata "user_id" with
  | some uid => some uid
  | none =>
      match session.customer_email with
      | some em => emailLookup em
      | none => none

/-- Body of the confirmation handler once the Stripe session has been
retrieved (lines 85–214).  `emailLookup` is the `user`-table email index and
`updateOk` tells whether the Supabase `update` succeeds.  Mirrors the source:

* `payment_status = "paid"`, user resolved, update succeeds → 200 with
  `status:"complete"`, `user_updated:true`, expiry `now + 30` days, and the
  corresponding directory write;
* `payment_status = "paid"`, user resolved, update fails → 200 with
  `user_updated:false` and **no `status` field** (lines 150–160);
* `payment_status = "paid"`, no user resolved → 200 with `status:"complete"`,
  `user_updated:false`, no write;
* any other `payment_status` → 200 with `status:"pending"`,
  `user_updated:false`, no write. -/
def confirmSession (session : StripeSession)
    (emailLookup : String → Option String) (updateOk : Bool)
    (now : Int) : ConfirmResult :=
  if session.payment_status = "paid" then
    match resolveUser session emailLookup with
    | some userId =>
        let premiumExpiresAt := now + 30
        if updateOk then
          { httpStat := 200
            status := some .complete
            user_updated := some true
            premium_expires_at := some premiumExpiresAt
            userWrite := some (userId, premiumExpiresAt) }
        else
          { httpStat := 200
            status := none
            user_updated := some false
            premium_expires_at := none
            userWrite := none }
    | none =>
        { httpStat := 200
          status := some .complete
          user_updated := some false
          premium_expires_at := none
          userWrite := none }
  else
    { httpStat := 200
      status := some .pending
      user_updated := some false
      premium_expires_at := none
      userWrite := none }

/-- Full confirmation endpoint: session retrieval may throw (network failure,
invalid session id), in which case the catch block (lines 215–226) answers
HTTP 500 with `status:"error"`; otherwise the handler body runs. -/
def confirmTop (retrieval : Except String StripeSession)
    (emailLookup : String → Option String) (updateOk : Bool)
    (now : Int) : ConfirmResult :=
  match retrieval with
  | .error _ =>
      { httpStat := 500
        status := some .error
        user_updated := none
        premium_expires_at := none
        userWrite := none }
  | .ok session => confirmSession session emailLookup updateOk now

/-- Metadata attached by the session-creation endpoint
(`checkout_sessions.js`, lines 100–106): keys `userId`, `userEmail`,
`purchaseType`, `timestamp`. -/
def createSessionMetadata (userId userEmail timestamp : String) :
    List (String × String) :=
  [("userId", userId), ("userEmail", userEmail),
   ("purchaseType", "premium_monthly"), ("timestamp", timestamp)]

/-! ## Favorites service (`favorisService.js`) -/

instance {ε α : Type} [DecidableEq ε] [DecidableEq α] :
    DecidableEq (Except ε α) := fun a b =>
  match a, b with
  | .ok x, .ok y => decidable_of_iff (x = y) (by simp)
  | .ok _, .error _ => isFalse (by simp)
  | .error _, .ok _ => isFalse (by simp)
  | .error x, .error y => decidable_of_iff (x = y) (by simp)

/-- `toLowerCase` of JavaScript, on the character list of the string
(ASCII case folding, which covers the city names the code compares). -/
def jsToLower (s : String) : String :=
  ⟨s.data.map Char.toLower⟩

/-- Error message of the quota check (`favorisService.js` line 47 and the
favorites API line 337): at most 3 favorites. -/
def quotaMsg : String := "Limite de 3 favoris atteinte"

/-- Error message of the duplicate check (`favorisService.js` line 56). -/
def dupMsg : String := "Cette ville est déjà dans vos favoris"

/-- `favorisService.ajouterFavori` (lines 30–81), given the current list of
the user's favorite city names (`existingFavoris`, each row's `ville` field)
and the city to add.  Returns the inserted `ville` or the error message,
together with the user's favorites after the call.  Mirrors the source
order: quota check (`length >= 3`) first, then the case-insensitive
duplicate check, then the insert. -/
def ajouterFavori (existingFavoris : List String) (ville : String) :
    Except String String × List String :=
  if 3 ≤ existingFavoris.length then
    (.error quotaMsg, existingFavoris)
  else
    let villeExiste :=
      existingFavoris.any (fun f => jsToLower f == jsToLower ville)
    if villeExiste then
      (.error dupMsg, existingFavoris)
    else
      (.ok ville, existingFavoris ++ [ville])

/-! ## Favorites HTTP API (second handler in `checkout_sessions.js`) -/

/-- A row of the `favorie` table: nullable `user_id` and the `ville` name. -/
structure FavRow where
  user_id : Option String
  ville : String
  deriving DecidableEq, Repr

/-- JavaScript truthiness of an optional string: `undefined`, `null` and
`""` are falsy. -/
def strTruthy : Option String → Bool
  | none => false
  | some s => !(s == "")

/-- POST branch of the favorites API handler (lines 301–376): given the
current `favorie` table and the request body's `userId` and `ville`, returns
the HTTP status and the table after the call.  The quota check (at most 3
rows for `user_id = postUserId`) runs only when `postUserId` is truthy; the
insert stores `user_id` only when truthy. -/
def favPost (table : List FavRow) (postUserId ville : Option String) :
    Nat × List FavRow :=
  if !(strTruthy ville) then
    (400, table)
  else
    let v := ville.getD ""
    if strTruthy postUserId then
      let existingFavoris := table.filter (fun r => r.user_id == postUserId)
      if 3 ≤ existingFavoris.length then
        (400, table)
      else
        (201, table ++ [⟨postUserId, v⟩])
    else
      (201, table ++ [⟨none, v⟩])

/-! ## Auth facade (`AuthProvider.signUp` in the auth context, and
`demoAuth.js`) -/

/-- Whether `pat` occurs as a contiguous sublist of the second list —
JavaScript's `String.prototype.includes` on the character lists. -/
def listHasSub (pat : List Char) : List Char → Bool
  | [] => pat.isPrefixOf []
  | c :: cs => pat.isPrefixOf (c :: cs) || listHasSub pat cs

/-- `s.includes(pat)` of JavaScript. -/
def strHasSub (s pat : String) : Bool :=
  listHasSub pat.toList s.toList

/-- Profile data passed to registration (`userData`). -/
structure ProfileData where
  nom : String
  prenom : String
  telephone : String
  localite : String
  deriving DecidableEq, Repr

/-- Arguments of one registration attempt. -/
structure SignUpArgs where
  email : String
  password : String
  userData : ProfileData
  deriving DecidableEq, Repr

/-- A user object as returned by a backend's sign-up. -/
structure AuthUser where
  id : String
  email : String
  meta : ProfileData
  deriving DecidableEq, Repr

/-- `demoAuth.signUp` (`demoAuth.js` lines 10–33): rejects the seeded email
`test@demo.com`, otherwise returns a fresh demo user carrying the supplied
profile data.  `demoStamp` stands for the `Date.now()` suffix of the id. -/
def demoSignUp (args : SignUpArgs) (demoStamp : String) :
    Except String AuthUser :=
  if args.email = "test@demo.com" then
    .error "Cet email est déjà utilisé (démo)"
  else
    .ok { id := "demo-user-" ++ demoStamp
          email := args.email
          meta := args.userData }

/-- Error-message translation of the live sign-up path (auth context lines
150–167): three recognized provider messages get fixed French texts, any
other message is wrapped as `Erreur d'inscription: <message>`. -/
def wrapLiveError (msg : String) : String :=
  if strHasSub msg "User already registered" then
    "Cette adresse email est déjà utilisée"
  else if strHasSub msg "Signup is disabled" then
    "L'inscription est désactivée sur ce projet"
  else if strHasSub msg "Email rate limit exceeded" then
    "Limite d'emails atteinte, veuillez réessayer plus tard"
  else
    "Erreur d'inscription: " ++ msg

/-- Observable outcome of one `AuthProvider.signUp` call: the demo-mode flag
after the call, the returned `data`/`error` pair, and the arguments of the
demo-backend registration performed during the call, if any. -/
structure SignUpResult where
  isDemoMode : Bool
  data : Option AuthUser
  error : Option String
  demoCall : Option SignUpArgs
  deriving DecidableEq, Repr

/-- `AuthProvider.signUp` (auth context lines 127–237).  `isDemoMode` is the
flag before the call; `liveResult` is the external provider's answer to
`supabase.auth.signUp` (unused in demo mode); `demoStamp` feeds the demo
user id.  In demo mode the call goes to `demoAuth.signUp` directly.  In live
mode a provider error is wrapped by `wrapLiveError` and rethrown; the catch
block retries against the demo backend with the same arguments and sets the
demo-mode flag **only** when the thrown message contains `"422"`, and that
is the only assignment to the flag anywhere in the provider. -/
def authSignUp (isDemoMode : Bool) (liveResult : Except String AuthUser)
    (args : SignUpArgs) (demoStamp : String) : SignUpResult :=
  if isDemoMode then
    match demoSignUp args demoStamp with
    | .ok u =>
        { isDemoMode := true, data := some u, error := none
          demoCall := some args }
    | .error m =>
        { isDemoMode := true, data := none, error := some m
          demoCall := some args }
  else
    match liveResult with
    | .ok u =>
        { isDemoMode := false, data := some u, error := none
          demoCall := none }
    | .error providerMsg =>
        let thrown := wrapLiveError providerMsg
        if strHasSub thrown "422" then
          match demoSignUp args demoStamp with
          | .ok u =>
              { isDemoMode := true, data := some u, error := none
                demoCall := some args }
          | .error dm =>
              { isDemoMode := true, data := none, error := some dm
                demoCall := some args }
        else
          { isDemoMode := false, data := none, error := some thrown
            demoCall := none }

/-! ## Claims about the premium-status endpoint -/

/-- C1: for a user stored with `is_premium = true` and a
`premium_expires_at` strictly in the past, `getStatus` answers
`is_premium = false` with the stored expiry unchanged, persists
`is_premium = false`, and a second call on the resulting row answers the
same false result without issuing a further write. -/
theorem premium_expired_downgrade_idempotent
    (row : UserRow) (e now now2 : Int)
    (hp : row.is_premium = true)
    (he : row.premium_expires_at = some e)
    (hpast : e < now) :
    (getStatus row now).is_premium = false ∧
    (getStatus row now).premium_expires_at = some e ∧
    (getStatus row now).newRow.is_premium = false ∧
    (getStatus row now).wrote = true ∧
    (getStatus (getStatus row now).newRow now2).is_premium = false ∧
    (getStatus (getStatus row now).newRow now2).premium_expires_at = some e ∧
    (getStatus (getStatus row now).newRow now2).wrote = false := by
  have h1 : getStatus row now =
      { is_premium := false
        premium_expires_at := some e
        newRow := { row with is_premium := false }
        wrote := true } := by
    simp [getStatus, he, hp, hpast]
  have h2 : getStatus ({ row with is_premium := false } : UserRow) now2 =
      { is_premium := false
        premium_expires_at := some e
        newRow := { row with is_premium := false }
        wrote := false } := by
    simp [getStatus, he]
  simp [h1, h2]

/-- Concrete run of `premium_expired_downgrade_idempotent`: expiry 0,
first call at time 1, second at time 2. -/
theorem premium_expired_downgrade_idempotent_witness :
    (⟨true, some 0⟩ : UserRow).is_premium = true ∧
    (⟨true, some 0⟩ : UserRow).premium_expires_at = some 0 ∧
    (0 : Int) < 1 ∧
    ((getStatus ⟨true, some 0⟩ 1).is_premium = false ∧
     (getStatus ⟨true, some 0⟩ 1).premium_expires_at = some 0 ∧
     (getStatus ⟨true, some 0⟩ 1).newRow.is_premium = false ∧
     (getStatus ⟨true, some 0⟩ 1).wrote = true ∧
     (getStatus (getStatus ⟨true, some 0⟩ 1).newRow 2).is_premium = false ∧
     (getStatus (getStatus ⟨true, some 0⟩ 1).newRow 2).premium_expires_at
       = some 0 ∧
     (getStatus (getStatus ⟨true, some 0⟩ 1).newRow 2).wrote = false) :=
  ⟨rfl, rfl, by decide,
   premium_expired_downgrade_idempotent ⟨true, some 0⟩ 0 1 2 rfl rfl
     (by decide)⟩

/-- C8: when the stored expiry is not in the past (absent or not earlier
than now), `getStatus` answers the stored `is_premium` unchanged and writes
nothing. -/
theorem premium_not_expired_returns_stored_no_write
    (row : UserRow) (now : Int)
    (h : ∀ e, row.premium_expires_at = some e → now ≤ e) :
    (getStatus row now).is_premium = row.is_premium ∧
    (getStatus row now).premium_expires_at = row.premium_expires_at ∧
    (getStatus row now).newRow = row ∧
    (getStatus row now).wrote = false := by
  cases he : row.premium_expires_at with
  | none => simp [getStatus, he]
  | some e =>
      have hle : now ≤ e := h e he
      have hn : ¬ (row.is_premium = true ∧ e < now) := by
        rintro ⟨-, hlt⟩
        omega
      simp [getStatus, he, hn]

/-- Concrete run of `premium_not_expired_returns_stored_no_write`: a premium
user whose expiry equals the current time. -/
theorem premium_not_expired_returns_stored_no_write_witness :
    (∀ e : Int, (⟨true, some 5⟩ : UserRow).premium_expires_at = some e →
      (5 : Int) ≤ e) ∧
    ((getStatus ⟨true, some 5⟩ 5).is_premium
        = (⟨true, some 5⟩ : UserRow).is_premium ∧
     (getStatus ⟨true, some 5⟩ 5).premium_expires_at
        = (⟨true, some 5⟩ : UserRow).premium_expires_at ∧
     (getStatus ⟨true, some 5⟩ 5).newRow = ⟨true, some 5⟩ ∧
     (getStatus ⟨true, some 5⟩ 5).wrote = false) :=
  ⟨fun e he => by
      have : (5 : Int) = e := by simpa using he
      omega,
   premium_not_expired_returns_stored_no_write ⟨true, some 5⟩ 5
     (fun e he => by
        have : (5 : Int) = e := by simpa using he
        omega)⟩

/-! ## Claims about the payment confirmation reconciler -/

/-- Helper: the handler body (no exception) never produces the
`status:"error"` outcome. -/
theorem confirmSession_status_ne_error
    (session : StripeSession) (emailLookup : String → Option String)
    (updateOk : Bool) (now : Int) :
    (confirmSession session emailLookup updateOk now).status
      ≠ some ConfirmStatus.error := by
  unfold confirmSession
  split
  · cases resolveUser session emailLookup with
    | some uid => cases updateOk <;> simp
    | none => simp
  · simp

/-- C2: a paid session whose user resolves, with the directory update
succeeding, yields `status:"complete"`, `user_updated:true`, expiry exactly
30 days from the call, and the matching directory write; any session whose
`payment_status` is not `"paid"` yields `status:"pending"` and
`user_updated:false`. -/
theorem confirm_paid_complete_else_pending
    (session sessionB : StripeSession)
    (emailLookup emailLookupB : String → Option String)
    (now nowB : Int) (uid : String) (updB : Bool)
    (hpaid : session.payment_status = "paid")
    (hres : resolveUser session emailLookup = some uid)
    (hnot : sessionB.payment_status ≠ "paid") :
    confirmSession session emailLookup true now =
      { httpStat := 200
        status := some .complete
        user_updated := some true
        premium_expires_at := some (now + 30)
        userWrite := some (uid, now + 30) } ∧
    (confirmSession sessionB emailLookupB updB nowB).status = some .pending ∧
    (confirmSession sessionB emailLookupB updB nowB).user_updated
      = some false ∧
    (confirmSession sessionB emailLookupB updB nowB).userWrite = none := by
  refine ⟨?_, ?_⟩
  · simp [confirmSession, hpaid, hres]
  · simp [confirmSession, hnot]

/-- Concrete run of `confirm_paid_complete_else_pending`: a paid session
carrying `metadata.user_id = "u1"` and an `"unpaid"` session. -/
theorem confirm_paid_complete_else_pending_witness :
    (⟨"paid", [("user_id", "u1")], none, none⟩ :
        StripeSession).payment_status = "paid" ∧
    resolveUser ⟨"paid", [("user_id", "u1")], none, none⟩ (fun _ => none)
      = some "u1" ∧
    (⟨"unpaid", [], none, none⟩ : StripeSession).payment_status ≠ "paid" ∧
    (confirmSession ⟨"paid", [("user_id", "u1")], none, none⟩
        (fun _ => none) true 7 =
      { httpStat := 200
        status := some .complete
        user_updated := some true
        premium_expires_at := some 37
        userWrite := some ("u1", 37) } ∧
     (confirmSession ⟨"unpaid", [], none, none⟩ (fun _ => none) true 7).status
       = some .pending ∧
     (confirmSession ⟨"unpaid", [], none, none⟩
        (fun _ => none) true 7).user_updated = some false ∧
     (confirmSession ⟨"unpaid", [], none, none⟩
        (fun _ => none) true 7).userWrite = none) :=
  ⟨rfl, by decide, by decide,
   confirm_paid_complete_else_pending
     ⟨"paid", [("user_id", "u1")], none, none⟩ ⟨"unpaid", [], none, none⟩
     (fun _ => none) (fun _ => none) 7 7 "u1" true rfl (by decide)
     (by decide)⟩

/-- C3 counterexample: for a paid session whose user resolves but whose
entitlement persistence fails, the response is an HTTP success with
`user_updated:false`, yet it does **not** carry the `status` field of a
COMPLETE outcome — the `status` key is absent from that response
(lines 150–160 of the handler). -/
theorem confirm_update_failure_lacks_status_field :
    (confirmSession ⟨"paid", [("user_id", "u1")], none, none⟩
        (fun _ => none) false 0).httpStat = 200 ∧
    (confirmSession ⟨"paid", [("user_id", "u1")], none, none⟩
        (fun _ => none) false 0).user_updated = some false ∧
    (confirmSession ⟨"paid", [("user_id", "u1")], none, none⟩
        (fun _ => none) false 0).status ≠ some ConfirmStatus.complete := by
  refine ⟨by decide, by decide, by decide⟩

/-- C3 (amended): a paid session with unresolvable user is reported as HTTP
200 with `status:"complete"` and `user_updated:false`; a paid session whose
persistence fails is reported as HTTP 200 with `user_updated:false` but
without any `status` field; and the `status:"error"` outcome is produced
exactly when session retrieval throws. -/
theorem confirm_soft_failures_and_error_only_on_exception
    (s1 s2 : StripeSession)
    (el1 el2 el3 : String → Option String)
    (now1 now2 now3 : Int) (upd1 upd3 : Bool) (uid : String)
    (retrieval : Except String StripeSession)
    (h1paid : s1.payment_status = "paid")
    (h1none : resolveUser s1 el1 = none)
    (h2paid : s2.payment_status = "paid")
    (h2res : resolveUser s2 el2 = some uid) :
    confirmSession s1 el1 upd1 now1 =
      { httpStat := 200
        status := some .complete
        user_updated := some false
        premium_expires_at := none
        userWrite := none } ∧
    confirmSession s2 el2 false now2 =
      { httpStat := 200
        status := none
        user_updated := some false
        premium_expires_at := none
        userWrite := none } ∧
    ((confirmTop retrieval el3 upd3 now3).status = some ConfirmStatus.error
      ↔ ∃ m, retrieval = .error m) := by
  refine ⟨?_, ?_, ?_⟩
  · simp [confirmSession, h1paid, h1none]
  · simp [confirmSession, h2paid, h2res]
  · cases retrieval with
    | error m => simp [confirmTop]
    | ok s =>
        simp only [confirmTop]
        constructor
        · intro hs
          exact absurd hs (confirmSession_status_ne_error s el3 upd3 now3)
        · rintro ⟨m, hm⟩
          exact absurd hm (by simp)

/-- Concrete run of `confirm_soft_failures_and_error_only_on_exception`:
a paid session with no identifying data, a paid session with
`metadata.user_id = "u2"`, and a failed retrieval. -/
theorem confirm_soft_failures_witness :
    (⟨"paid", [], none, none⟩ : StripeSession).payment_status = "paid" ∧
    resolveUser ⟨"paid", [], none, none⟩ (fun _ => none) = none ∧
    (⟨"paid", [("user_id", "u2")], none, none⟩ :
        StripeSession).payment_status = "paid" ∧
    resolveUser ⟨"paid", [("user_id", "u2")], none, none⟩ (fun _ => none)
      = some "u2" ∧
    (confirmSession ⟨"paid", [], none, none⟩ (fun _ => none) true 0 =
      { httpStat := 200
        status := some .complete
        user_updated := some false
        premium_expires_at := none
        userWrite := none } ∧
     confirmSession ⟨"paid", [("user_id", "u2")], none, none⟩
        (fun _ => none) false 0 =
      { httpStat := 200
        status := none
        user_updated := some false
        premium_expires_at := none
        userWrite := none } ∧
     ((confirmTop (.error "network failure") (fun _ => none) true 0).status
        = some ConfirmStatus.error
       ↔ ∃ m, (Except.error "network failure" :
           Except String StripeSession) = .error m)) :=
  ⟨rfl, by decide, rfl, by decide,
   confirm_soft_failures_and_error_only_on_exception
     ⟨"paid", [], none, none⟩ ⟨"paid", [("user_id", "u2")], none, none⟩
     (fun _ => none) (fun _ => none) (fun _ => none) 0 0 0 true true "u2"
     (.error "network failure") rfl (by decide) rfl (by decide)⟩

/-- C9: the creation endpoint stores the user id under the metadata key
`userId`, while the confirmation endpoint looks up `user_id`; hence on any
session carrying creation-produced metadata the metadata lookup yields
nothing and user resolution is exactly the customer-email lookup. -/
theorem created_metadata_never_resolves_user_id
    (u e t : String) (session : StripeSession)
    (emailLookup : String → Option String)
    (hm : session.metadata = createSessionMetadata u e t) :
    metaGet session.metadata "user_id" = none ∧
    resolveUser session emailLookup =
      (match session.customer_email with
       | some em => emailLookup em
       | none => none) := by
  have hget : metaGet session.metadata "user_id" = none := by
    rw [hm]
    simp [metaGet, createSessionMetadata, List.find?]
  exact ⟨hget, by rw [resolveUser, hget]⟩

/-- Concrete run of `created_metadata_never_resolves_user_id`: a session
whose metadata was produced by the creation endpoint for user `u9`. -/
theorem created_metadata_never_resolves_user_id_witness :
    (⟨"paid", createSessionMetadata "u9" "a@x.com" "t0", some "a@x.com",
        none⟩ : StripeSession).metadata
      = createSessionMetadata "u9" "a@x.com" "t0" ∧
    (metaGet (createSessionMetadata "u9" "a@x.com" "t0") "user_id" = none ∧
     resolveUser
        ⟨"paid", createSessionMetadata "u9" "a@x.com" "t0", some "a@x.com",
          none⟩ (fun em => if em = "a@x.com" then some "u9" else none) =
       (match some "a@x.com" with
        | some em => (fun em => if em = "a@x.com" then some "u9" else none) em
        | none => none)) :=
  ⟨rfl,
   created_metadata_never_resolves_user_id "u9" "a@x.com" "t0"
     ⟨"paid", createSessionMetadata "u9" "a@x.com" "t0", some "a@x.com", none⟩
     (fun em => if em = "a@x.com" then some "u9" else none) rfl⟩

/-! ## Claims about the favorites logic -/

/-- C4: with 3 or more stored favorites, `ajouterFavori` fails with the
quota error whatever city name is supplied, and inserts nothing. -/
theorem quota_at_three_rejects_any_name
    (existingFavoris : List String) (ville : String)
    (h : 3 ≤ existingFavoris.length) :
    ajouterFavori existingFavoris ville = (.error quotaMsg, existingFavoris) := by
  simp [ajouterFavori, h]

/-- Concrete run of `quota_at_three_rejects_any_name`: both an
already-present name and a new name hit the quota. -/
theorem quota_at_three_rejects_any_name_witness :
    3 ≤ (["Paris", "Lyon", "Nice"] : List String).length ∧
    ajouterFavori ["Paris", "Lyon", "Nice"] "Tokyo"
      = (.error quotaMsg, ["Paris", "Lyon", "Nice"]) :=
  ⟨by decide,
   quota_at_three_rejects_any_name ["Paris", "Lyon", "Nice"] "Tokyo"
     (by decide)⟩

/-- C5 counterexample: with the 3 favorites `["Paris","Lyon","Nice"]`,
`add("paris")` does **not** fail with the Duplicate error — the quota check
runs first (lines 45–48 before lines 50–57 of `favorisService.js`), so it
fails with QuotaExceeded. -/
theorem scenario_add_paris_not_duplicate :
    (ajouterFavori ["Paris", "Lyon", "Nice"] "paris").1 ≠ .error dupMsg ∧
    (ajouterFavori ["Paris", "Lyon", "Nice"] "paris").1 = .error quotaMsg := by
  refine ⟨by decide, by decide⟩

/-- C5 (amended): with the 3 favorites `["Paris","Lyon","Nice"]`, both
`add("paris")` and `add("Marseille")` fail with the QuotaExceeded error,
since the quota check precedes the duplicate check. -/
theorem scenario_three_favorites_both_adds_quota :
    ajouterFavori ["Paris", "Lyon", "Nice"] "paris"
      = (.error quotaMsg, ["Paris", "Lyon", "Nice"]) ∧
    ajouterFavori ["Paris", "Lyon", "Nice"] "Marseille"
      = (.error quotaMsg, ["Paris", "Lyon", "Nice"]) := by
  refine ⟨by decide, by decide⟩

/-- C6: below the quota, adding a city equal to an existing favorite up to
letter case fails with the Duplicate error and inserts nothing. -/
theorem duplicate_case_insensitive_rejected
    (existingFavoris : List String) (ville f : String)
    (hcount : existingFavoris.length < 3)
    (hf : f ∈ existingFavoris)
    (hcase : jsToLower f = jsToLower ville) :
    ajouterFavori existingFavoris ville = (.error dupMsg, existingFavoris) := by
  have hq : ¬ (3 ≤ existingFavoris.length) := by omega
  have hex : existingFavoris.any (fun g => jsToLower g == jsToLower ville)
      = true :=
    List.any_eq_true.mpr ⟨f, hf, by simp [hcase]⟩
  simp [ajouterFavori, hq, hex]

/-- Concrete run of `duplicate_case_insensitive_rejected`: `"paris"` against
an existing `"Paris"`. -/
theorem duplicate_case_insensitive_rejected_witness :
    (["Paris"] : List String).length < 3 ∧
    "Paris" ∈ (["Paris"] : List String) ∧
    jsToLower "Paris" = jsToLower "paris" ∧
    ajouterFavori ["Paris"] "paris" = (.error dupMsg, ["Paris"]) :=
  ⟨by decide, by decide, by decide,
   duplicate_case_insensitive_rejected ["Paris"] "paris" "Paris" (by decide)
     (by decide) (by decide)⟩

/-- C10: a POST to the favorites API with a city but no user id skips the
quota check and inserts unconditionally — whatever the current table —
while the same request with a user id already owning 3 rows is rejected
with HTTP 400 and no insert. -/
theorem favorites_quota_only_with_user_identifier
    (table tableB : List FavRow) (v uid : String)
    (hv : v ≠ "") (huid : uid ≠ "")
    (hcnt : 3 ≤ (tableB.filter (fun r => r.user_id == some uid)).length) :
    favPost table none (some v) = (201, table ++ [⟨none, v⟩]) ∧
    favPost tableB (some uid) (some v) = (400, tableB) := by
  have hvb : (v == "") = false := by
    simpa using hv
  have hub : (uid == "") = false := by
    simpa using huid
  refine ⟨?_, ?_⟩
  · simp [favPost, strTruthy, hvb]
  · simp [favPost, strTruthy, hvb, hub, hcnt]

/-- Concrete run of `favorites_quota_only_with_user_identifier`: a table
already holding 3 rows for user `u1` (and one anonymous row), with the
anonymous POST still inserting a 5th row. -/
theorem favorites_quota_only_with_user_identifier_witness :
    ("Paris" : String) ≠ "" ∧
    ("u1" : String) ≠ "" ∧
    3 ≤ (([⟨some "u1", "Lyon"⟩, ⟨some "u1", "Nice"⟩, ⟨some "u1", "Brest"⟩,
            ⟨none, "Pau"⟩] : List FavRow).filter
          (fun r => r.user_id == some "u1")).length ∧
    (favPost [⟨some "u1", "Lyon"⟩, ⟨some "u1", "Nice"⟩, ⟨some "u1", "Brest"⟩,
        ⟨none, "Pau"⟩] none (some "Paris")
      = (201, [⟨some "u1", "Lyon"⟩, ⟨some "u1", "Nice"⟩,
               ⟨some "u1", "Brest"⟩, ⟨none, "Pau"⟩, ⟨none, "Paris"⟩]) ∧
     favPost [⟨some "u1", "Lyon"⟩, ⟨some "u1", "Nice"⟩, ⟨some "u1", "Brest"⟩,
        ⟨none, "Pau"⟩] (some "u1") (some "Paris")
      = (400, [⟨some "u1", "Lyon"⟩, ⟨some "u1", "Nice"⟩,
               ⟨some "u1", "Brest"⟩, ⟨none, "Pau"⟩])) :=
  ⟨by decide, by decide, by decide,
   favorites_quota_only_with_user_identifier
     [⟨some "u1", "Lyon"⟩, ⟨some "u1", "Nice"⟩, ⟨some "u1", "Brest"⟩,
      ⟨none, "Pau"⟩]
     [⟨some "u1", "Lyon"⟩, ⟨some "u1", "Nice"⟩, ⟨some "u1", "Brest"⟩,
      ⟨none, "Pau"⟩]
     "Paris" "u1" (by decide) (by decide) (by decide)⟩

/-! ## Claim about the auth facade fallback -/

/-- C7: in live mode, a registration failure whose (wrapped and rethrown)
provider message contains `"422"` makes the facade retry the registration
against the demo backend with the same email, password and profile data and
switch the session to demo mode; and once in demo mode, a sign-up call
never leaves it. -/
theorem live_422_falls_back_to_demo_and_demo_is_sticky
    (args : SignUpArgs) (providerMsg demoStamp : String)
    (h422 : strHasSub (wrapLiveError providerMsg) "422" = true) :
    ((authSignUp false (.error providerMsg) args demoStamp).demoCall
        = some args ∧
     (authSignUp false (.error providerMsg) args demoStamp).isDemoMode
        = true) ∧
    ∀ (argsB : SignUpArgs) (liveB : Except String AuthUser)
      (stampB : String),
      (authSignUp true liveB argsB stampB).isDemoMode = true := by
  refine ⟨?_, ?_⟩
  · cases hd : demoSignUp args demoStamp <;>
      simp [authSignUp, h422, hd]
  · intro argsB liveB stampB
    cases hd : demoSignUp argsB stampB <;>
      simp [authSignUp, hd]

/-- Concrete run of `live_422_falls_back_to_demo_and_demo_is_sticky`:
provider message `"422"` (wrapped into `Erreur d'inscription: 422`). -/
theorem live_422_falls_back_witness :
    strHasSub (wrapLiveError "422") "422" = true ∧
    (((authSignUp false (.error "422")
          ⟨"a@x.com", "pw", ⟨"N", "P", "06", "Nice"⟩⟩ "0").demoCall
        = some ⟨"a@x.com", "pw", ⟨"N", "P", "06", "Nice"⟩⟩ ∧
      (authSignUp false (.error "422")
          ⟨"a@x.com", "pw", ⟨"N", "P", "06", "Nice"⟩⟩ "0").isDemoMode
        = true) ∧
     ∀ (argsB : SignUpArgs) (liveB : Except String AuthUser)
       (stampB : String),
       (authSignUp true liveB argsB stampB).isDemoMode = true) :=
  ⟨by decide,
   live_422_falls_back_to_demo_and_demo_is_sticky
     ⟨"a@x.com", "pw", ⟨"N", "P", "06", "Nice"⟩⟩ "422" "0" (by decide)⟩

end Meteo
